import Mathlib

/-!
# Watchdog daemon (`src/wdog.c`)

A shallow embedding of the watchdog keep-alive daemon.  The three process-wide
variables `fd`, `appRunning` and `wdogDisable` are fields of `State`; every
system call appends one `Op` to `State.trace` and takes its return value from a
device oracle `Dev`, a function of the whole history of operations, so that a
statement quantified over `Dev` covers every behaviour of the kernel and of the
device.  `syslog` calls are collected in `State.log`.
-/

namespace Wdog

/-- The ioctl requests of `linux/watchdog.h` used by the daemon. -/
inductive Req
  | getSupport
  | setTimeout
  | keepAlive
  | setOptions
  deriving DecidableEq, Repr

/-- System and library calls made by the program, with the arguments passed. -/
inductive Op
  | sigaction
  | printUsage
  | fork
  | umask (mask : Nat)
  | setsid
  | chdir (path : String)
  | openDev (path : Option String)
  | ioctl (fd : Int) (req : Req) (arg : Int)
  | write (fd : Int) (bytes : List Char)
  | close (fd : Int)
  | sleep (secs : Nat)
  | fopen (path : String)
  | fprintfPid
  | fclose
  | remove (path : String)
  deriving DecidableEq, Repr

/-- The messages handed to `syslog`, one constructor per call site. -/
inductive Log
  | errFork
  | errSid
  | errChdir
  | errOpen
  | infoStarted
  | infoTimeoutSet
  | errSetTimeout
  | errPing
  | errDisarmIoctl
  | errDisarmWrite
  | infoSigterm
  | warnPidWrite
  | warnPidRemove
  deriving DecidableEq, Repr

/-- Return value of a call, given the history of calls up to and including it. -/
abbrev Dev := List Op → Int

/-- The globals of `wdog.c` (lines 50-52) together with the observable history. -/
structure State where
  fd : Int
  appRunning : Nat
  wdogDisable : Nat
  trace : List Op
  log : List Log
  deriving DecidableEq, Repr

/-- The static initialisers: `fd = -1`, `appRunning = 1`, `wdogDisable = 0`. -/
def State.init : State :=
  { fd := -1, appRunning := 1, wdogDisable := 0, trace := [], log := [] }

/-- Value of `WDIOS_DISABLECARD` in `linux/watchdog.h` (`0x0001`). -/
def WDIOS_DISABLECARD : Int := 1

/-- The byte written to disarm the watchdog (`magicValue`). -/
def magicValue : Char := 'V'

/-- Issue one call: record it and read its result from the oracle. -/
def sys (dev : Dev) (op : Op) (s : State) : Int × State :=
  (dev (s.trace ++ [op]), { s with trace := s.trace ++ [op] })

/-- Record one `syslog` message. -/
def syslog (m : Log) (s : State) : State :=
  { s with log := s.log ++ [m] }

/-- Embedding of `wdogOpen` (lines 195-218): returns the status and the new state. -/
def wdogOpen (dev : Dev) (watchdogDriver : Option String) (timeout : Int)
    (s : State) : Int × State :=
  let r := sys dev (Op.openDev watchdogDriver) s
  let s1 : State := { r.2 with fd := r.1 }
  if s1.fd < 0 then
    (1, syslog Log.errOpen s1)
  else
    let g := sys dev (Op.ioctl s1.fd Req.getSupport 0) s1
    let s2 := if g.1 ≥ 0 then syslog Log.infoStarted g.2 else g.2
    let t := sys dev (Op.ioctl s2.fd Req.setTimeout timeout) s2
    let s3 := if t.1 ≥ 0 then syslog Log.infoTimeoutSet t.2 else syslog Log.errSetTimeout t.2
    (0, s3)

/-- Embedding of `wdogPing` (lines 224-232). -/
def wdogPing (dev : Dev) (s : State) : Int × State :=
  let r := sys dev (Op.ioctl s.fd Req.keepAlive 0) s
  if r.1 < 0 then (1, syslog Log.errPing r.2) else (0, r.2)

/-- Embedding of `wdogClose` (lines 238-261).  The first component of each pair
is the local `ret`, which starts at 0: the ioctl branch sets it to 1 or leaves
it, the write branch sets it to 1 or to 0, and `fd` receives the result of
`close`. -/
def wdogClose (dev : Dev) (s : State) : Int × State :=
  if s.fd ≥ 0 then
    if s.wdogDisable ≠ 0 then
      let i := sys dev (Op.ioctl s.fd Req.setOptions WDIOS_DISABLECARD) s
      let a : Int × State := if i.1 ≠ 0 then (1, syslog Log.errDisarmIoctl i.2) else (0, i.2)
      let w := sys dev (Op.write a.2.fd [magicValue]) a.2
      let b : Int × State := if w.1 < 1 then (1, syslog Log.errDisarmWrite w.2) else (0, w.2)
      let c := sys dev (Op.close b.2.fd) b.2
      (b.1, { c.2 with fd := c.1 })
    else
      let c := sys dev (Op.close s.fd) s
      (0, { c.2 with fd := c.1 })
  else
    (0, s)

/-- Embedding of `sigHandler` (lines 267-273). -/
def sigHandler (dev : Dev) (s : State) : State :=
  let s1 := syslog Log.infoSigterm s
  let c := wdogClose dev s1
  { c.2 with appRunning := 0 }

/-! ## Command line: the C library's `getopt_long` and `atoi` -/

/-- The `has_arg` field of `struct option` (`getopt.h`). -/
inductive HasArg
  | no_argument
  | required_argument
  | optional_argument
  deriving DecidableEq, Repr

/-- One row of the long-option table: `name`, `has_arg`, `val` (`flag` is `NULL` throughout). -/
structure LongOpt where
  name : String
  has_arg : HasArg
  val : Char
  deriving DecidableEq, Repr

/-- The short option string `sopts` (line 53). -/
def sopts : String := "dD:t:p:bh"

/-- The long option table `lopts` (lines 54-62), without its terminating row. -/
def lopts : List LongOpt :=
  [ ⟨"disable", HasArg.no_argument, 'd'⟩,
    ⟨"Devname", HasArg.required_argument, 'D'⟩,
    ⟨"timeout", HasArg.optional_argument, 't'⟩,
    ⟨"pingrate", HasArg.optional_argument, 'p'⟩,
    ⟨"background", HasArg.no_argument, 'b'⟩,
    ⟨"help", HasArg.no_argument, 'h'⟩ ]

/-- One return of `getopt_long`: the value returned and `optarg` (`none` is `NULL`). -/
structure Opt where
  c : Char
  optarg : Option String
  deriving DecidableEq, Repr

/-- C library, after getopt(3): how a short option character is declared in the
option string, `none` when it is not declared.  A character followed by one colon
takes an argument, by two colons an optional one. -/
def shortArg (c : Char) : List Char → Option HasArg
  | [] => none
  | x :: rest =>
    if x = c then
      match rest with
      | ':' :: ':' :: _ => some HasArg.optional_argument
      | ':' :: _ => some HasArg.required_argument
      | _ => some HasArg.no_argument
    else shortArg c rest

/-- C library, after getopt(3): scan the characters that follow the dash of one
argv word.  Returns the values `getopt_long` yields for this word and, when the
last option still needs its argument from the next argv word, that option.
An undeclared character yields `?`; an argument glued to its option is the rest
of the word, taken verbatim. -/
def shortCluster (optstring : List Char) : List Char → List Opt × Option Char
  | [] => ([], none)
  | c :: cs =>
    if c = ':' ∨ c = ';' then
      (⟨'?', none⟩ :: (shortCluster optstring cs).1, (shortCluster optstring cs).2)
    else
      match shortArg c optstring with
      | none => (⟨'?', none⟩ :: (shortCluster optstring cs).1, (shortCluster optstring cs).2)
      | some HasArg.no_argument =>
        (⟨c, none⟩ :: (shortCluster optstring cs).1, (shortCluster optstring cs).2)
      | some HasArg.required_argument =>
        if cs = [] then ([], some c) else ([⟨c, some (String.mk cs)⟩], none)
      | some HasArg.optional_argument =>
        if cs = [] then ([⟨c, none⟩], none) else ([⟨c, some (String.mk cs)⟩], none)

/-- C library, after getopt(3): the rows a long option name selects, an exact
match if there is one, otherwise every row the name abbreviates. -/
def longMatches (longopts : List LongOpt) (name : List Char) : List LongOpt :=
  match longopts.filter (fun o => o.name.data = name) with
  | [] => longopts.filter (fun o => name.isPrefixOf o.name.data)
  | exact => exact

/-- C library, after getopt(3): one argv word `--name` or `--name=value`, given
the characters after the two dashes. -/
def longWord (longopts : List LongOpt) (body : List Char) : List Opt × Option Char :=
  let name := body.takeWhile (fun ch => ch ≠ '=')
  let value := (body.dropWhile (fun ch => ch ≠ '=')).tail?
  match longMatches longopts name with
  | [o] =>
    match o.has_arg, value with
    | HasArg.no_argument, none => ([⟨o.val, none⟩], none)
    | HasArg.no_argument, some _ => ([⟨'?', none⟩], none)
    | HasArg.required_argument, none => ([], some o.val)
    | HasArg.required_argument, some v => ([⟨o.val, some (String.mk v)⟩], none)
    | HasArg.optional_argument, none => ([⟨o.val, none⟩], none)
    | HasArg.optional_argument, some v => ([⟨o.val, some (String.mk v)⟩], none)
  | _ => ([⟨'?', none⟩], none)

/-- C library, after getopt(3), default (permuting) mode: the successive return
values of `getopt_long` over the argv words after the program name, until it
returns -1.  `pending` is an option waiting for the next word as its argument;
a word `--` ends the options, a word that is not an option is passed over. -/
def getoptWords (optstring : List Char) (longopts : List LongOpt) :
    Option Char → List String → List Opt
  | some _, [] => [⟨'?', none⟩]
  | some c, a :: rest => ⟨c, some a⟩ :: getoptWords optstring longopts none rest
  | none, [] => []
  | none, w :: rest =>
    match w.data with
    | ['-', '-'] => []
    | '-' :: '-' :: body =>
      (longWord longopts body).1 ++
        getoptWords optstring longopts (longWord longopts body).2 rest
    | '-' :: c :: cs =>
      (shortCluster optstring (c :: cs)).1 ++
        getoptWords optstring longopts (shortCluster optstring (c :: cs)).2 rest
    | _ => getoptWords optstring longopts none rest

/-- The calls `getopt_long(argc, argv, sopts, lopts, NULL)` of line 85. -/
def getopt_long (argv : List String) : List Opt :=
  getoptWords sopts.data lopts none argv.tail

/-- C library `isspace` in the C locale. -/
def isspace (c : Char) : Bool :=
  c = ' ' || (9 ≤ c.toNat && c.toNat ≤ 13)

/-- Value of the leading decimal digits of a character list. -/
def digitsValue : Int → List Char → Int
  | acc, [] => acc
  | acc, c :: cs =>
    if c.isDigit then digitsValue (acc * 10 + (c.toNat - '0'.toNat : Nat)) cs else acc

/-- C library `atoi`: leading white space, an optional sign, then decimal digits;
0 when no digit follows.  The result is not reduced to the range of `int`
(the C function is undefined beyond it). -/
def atoi (s : String) : Int :=
  match s.data.dropWhile isspace with
  | '-' :: ds => - digitsValue 0 ds
  | '+' :: ds => digitsValue 0 ds
  | ds => digitsValue 0 ds

/-! ## `main` -/

def DEFAULT_TIMEOUT : Int := 10
def DEFAULT_PINGRATE : Int := 5
def DEFAULT_BACKGROUND : Int := 0

/-- The file named by `pidFileName` (line 70). -/
def pidFileName : String := "/var/run/wdogd.pid"

/-- The configurable locals of `main` (lines 76-79). -/
structure Locals where
  devFilename : Option String
  wdogTimeout : Int
  pingRate : Int
  background : Int
  deriving DecidableEq, Repr

/-- Their initial values. -/
def Locals.init : Locals :=
  { devFilename := some "/dev/watchdog", wdogTimeout := DEFAULT_TIMEOUT,
    pingRate := DEFAULT_PINGRATE, background := DEFAULT_BACKGROUND }

/-- The option loop of `main` (lines 85-115) over the values `getopt_long`
returns.  `none` in the first component: the usage was printed and `main`
returned 0. -/
def parseArgs : List Opt → Locals → State → Option Locals × State
  | [], l, s => (some l, s)
  | o :: os, l, s =>
    if o.c = 'd' then parseArgs os l { s with wdogDisable := 1 }
    else if o.c = 'D' then parseArgs os { l with devFilename := o.optarg } s
    else if o.c = 't' then
      match o.optarg with
      | some a => parseArgs os { l with wdogTimeout := atoi a } s
      | none => parseArgs os { l with wdogTimeout := DEFAULT_TIMEOUT } s
    else if o.c = 'p' then
      match o.optarg with
      | some a => parseArgs os { l with pingRate := atoi a } s
      | none => parseArgs os { l with pingRate := DEFAULT_PINGRATE } s
    else if o.c = 'b' then parseArgs os { l with background := 1 } s
    else (none, { s with trace := s.trace ++ [Op.printUsage] })

/-- The daemonization block of `main` (lines 117-146), run when `background` is
set.  `some code`: this process ends with that status (the parent after a
successful fork ends with 0). -/
def daemonize (dev : Dev) (s : State) : Option Int × State :=
  let f := sys dev Op.fork s
  if f.1 < 0 then (some 2, syslog Log.errFork f.2)
  else if f.1 > 0 then (some 0, f.2)
  else
    let u := sys dev (Op.umask 0) f.2
    let d := sys dev Op.setsid u.2
    if d.1 < 0 then (some 3, syslog Log.errSid d.2)
    else
      let c := sys dev (Op.chdir "/") d.2
      if c.1 < 0 then (some 4, syslog Log.errChdir c.2)
      else
        let c0 := sys dev (Op.close 0) c.2
        let c1 := sys dev (Op.close 1) c0.2
        let c2 := sys dev (Op.close 2) c1.2
        (none, c2.2)

/-- Writing the PID file (lines 154-160); `fopen` returning 0 is `NULL`. -/
def writePidFile (dev : Dev) (s : State) : State :=
  let f := sys dev (Op.fopen pidFileName) s
  if f.1 ≠ 0 then
    let p := sys dev Op.fprintfPid f.2
    (sys dev Op.fclose p.2).2
  else syslog Log.warnPidWrite f.2

/-- Removing the PID file (lines 168-169). -/
def removePidFile (dev : Dev) (s : State) : State :=
  let r := sys dev (Op.remove pidFileName) s
  if r.1 ≠ 0 then syslog Log.warnPidRemove r.2 else r.2

/-- Control points of `main`.  Between two of them the program performs one
call (or one test of a variable); a signal handler can run at each of them. -/
inductive Pc
  | start
  | parse
  | daemon
  | openDev
  | openCheck
  | getSupport
  | setTimeout
  | pidFile
  | loopTest
  | ping
  | sleep
  | removePid
  | exited (code : Int)
  | killed
  deriving DecidableEq, Repr

/-- The process: control point, globals and history, `argv`, and the locals of
`main` (`timeout` is the by-value parameter of `wdogOpen`). -/
structure Proc where
  pc : Pc
  g : State
  argv : List String
  loc : Locals
  deriving DecidableEq, Repr

/-- The process at the entry of `main`. -/
def Proc.init (argv : List String) : Proc :=
  { pc := Pc.start, g := State.init, argv := argv, loc := Locals.init }

/-- One step of `main` (lines 69-172, with `wdogOpen` inlined at its call). -/
def step (dev : Dev) (p : Proc) : Proc :=
  match p.pc with
  | Pc.start => { p with pc := Pc.parse, g := (sys dev Op.sigaction p.g).2 }
  | Pc.parse =>
    match parseArgs (getopt_long p.argv) p.loc p.g with
    | (none, g) => { p with pc := Pc.exited 0, g := g }
    | (some l, g) => { p with pc := Pc.daemon, g := g, loc := l }
  | Pc.daemon =>
    if p.loc.background ≠ 0 then
      match daemonize dev p.g with
      | (some code, g) => { p with pc := Pc.exited code, g := g }
      | (none, g) => { p with pc := Pc.openDev, g := g }
    else { p with pc := Pc.openDev }
  | Pc.openDev =>
    let r := sys dev (Op.openDev p.loc.devFilename) p.g
    { p with pc := Pc.openCheck, g := { r.2 with fd := r.1 } }
  | Pc.openCheck =>
    if p.g.fd < 0 then { p with pc := Pc.exited 1, g := syslog Log.errOpen p.g }
    else { p with pc := Pc.getSupport }
  | Pc.getSupport =>
    let r := sys dev (Op.ioctl p.g.fd Req.getSupport 0) p.g
    { p with pc := Pc.setTimeout, g := if r.1 ≥ 0 then syslog Log.infoStarted r.2 else r.2 }
  | Pc.setTimeout =>
    let r := sys dev (Op.ioctl p.g.fd Req.setTimeout p.loc.wdogTimeout) p.g
    { p with pc := Pc.pidFile,
             g := if r.1 ≥ 0 then syslog Log.infoTimeoutSet r.2
                  else syslog Log.errSetTimeout r.2 }
  | Pc.pidFile => { p with pc := Pc.loopTest, g := writePidFile dev p.g }
  | Pc.loopTest =>
    if p.g.appRunning ≠ 0 then { p with pc := Pc.ping } else { p with pc := Pc.removePid }
  | Pc.ping => { p with pc := Pc.sleep, g := (wdogPing dev p.g).2 }
  | Pc.sleep =>
    { p with pc := Pc.loopTest,
             g := (sys dev (Op.sleep (p.loc.pingRate % 4294967296).toNat) p.g).2 }
  | Pc.removePid => { p with pc := Pc.exited 0, g := removePidFile dev p.g }
  | Pc.exited _ => p
  | Pc.killed => p

/-- Delivery of SIGTERM at a control point.  Before `catchSigterm` has run, the
signal ends the process (its default disposition); afterwards `sigHandler` runs
and control resumes where it was.  Delivery at `Pc.ping` is the moment between the test of
`appRunning` and the ping, at `Pc.sleep` the moment the keep-alive call is in
the kernel or has just returned, at `Pc.loopTest` the moment `sleep` is
interrupted or has just returned. -/
def deliver (dev : Dev) (p : Proc) : Proc :=
  match p.pc with
  | Pc.start => { p with pc := Pc.killed }
  | Pc.exited _ => p
  | Pc.killed => p
  | _ => { p with g := sigHandler dev p.g }

/-- One step, preceded by the delivery of SIGTERM when `sig` is set. -/
def tick (dev : Dev) (sig : Bool) (p : Proc) : Proc :=
  step dev (if sig then deliver dev p else p)

/-- The first `n` steps of a process; `sig k` tells whether SIGTERM arrives just
before step `k` (steps are numbered from 0). -/
def run (dev : Dev) (sig : Nat → Bool) : Nat → Proc → Proc
  | 0, p => p
  | n + 1, p => tick dev (sig n) (run dev sig n p)

/-- The schedule without any signal. -/
def noSignal : Nat → Bool := fun _ => false

/-- The schedule with a single SIGTERM, just before step `k`. -/
def signalAt (k : Nat) : Nat → Bool := fun i => decide (i = k)

/-- A device that can be opened (descriptor 3) and accepts every operation:
`open` returns 3, `fopen` a non-null stream, `write` the one byte written,
every other call 0. -/
def mockDev : Dev := fun tr =>
  match tr.getLast? with
  | some (Op.openDev _) => 3
  | some (Op.fopen _) => 1
  | some (Op.write _ bytes) => bytes.length
  | _ => 0

/-- Whether an operation is a keep-alive ioctl, on any descriptor. -/
def Op.isKeepAlive : Op → Bool
  | Op.ioctl _ Req.keepAlive _ => true
  | _ => false

/-- Whether an operation is a `close`, on any descriptor. -/
def Op.isClose : Op → Bool
  | Op.close _ => true
  | _ => false

/-- Whether an operation is a `write`. -/
def Op.isWrite : Op → Bool
  | Op.write _ _ => true
  | _ => false

/-- Whether an operation is an ioctl. -/
def Op.isIoctl : Op → Bool
  | Op.ioctl _ _ _ => true
  | _ => false

/-- Whether an operation touches the PID file. -/
def Op.isPidFile : Op → Bool
  | Op.fopen _ => true
  | Op.fprintfPid => true
  | Op.fclose => true
  | Op.remove _ => true
  | _ => false

/-- The operations of a completed daemonization, none in the foreground. -/
def daemonOps (background : Int) : List Op :=
  if background ≠ 0 then
    [Op.fork, Op.umask 0, Op.setsid, Op.chdir "/", Op.close 0, Op.close 1, Op.close 2]
  else []

/-- What holds at the control points that precede the opening of the device:
the descriptor still has its initial value and the history is the installation
of the handler, followed by the daemonization once it is done. -/
def Startup (p : Proc) : Prop :=
  (p.pc = Pc.start → p.g.fd = -1 ∧ p.g.trace = []) ∧
  (p.pc = Pc.parse ∨ p.pc = Pc.daemon → p.g.fd = -1 ∧ p.g.trace = [Op.sigaction]) ∧
  (p.pc = Pc.openDev →
    p.g.fd = -1 ∧ p.g.trace = Op.sigaction :: daemonOps p.loc.background)

/-- The operations of `n` rounds of the daemon loop on descriptor `fd`. -/
def loopOps (fd : Int) (secs : Nat) : Nat → List Op
  | 0 => []
  | n + 1 => loopOps fd secs n ++ [Op.ioctl fd Req.keepAlive 0, Op.sleep secs]

/-! ## The device operations -/

/-- C1: with an open descriptor and disarm requested, `wdogClose` issues exactly
the disable-card ioctl, the one-byte write of `V` and the close of the
descriptor, in this order, whatever the device answers to each of them. -/
theorem wdogClose_disarm_sequence (dev : Dev) (s : State)
    (hfd : 0 ≤ s.fd) (hdis : s.wdogDisable ≠ 0) :
    (wdogClose dev s).2.trace =
      s.trace ++ [Op.ioctl s.fd Req.setOptions WDIOS_DISABLECARD,
                  Op.write s.fd ['V'], Op.close s.fd] := by
  have h : s.fd ≥ 0 := hfd
  simp only [wdogClose, if_pos h, if_pos hdis, sys, syslog, magicValue]
  split_ifs <;> simp

/-- Witness of C1 on a device that refuses both disarm steps. -/
theorem wdogClose_disarm_sequence_witness :
    (wdogClose (fun _ => -1) ⟨3, 1, 1, [], []⟩).2.trace =
      [Op.ioctl 3 Req.setOptions 1, Op.write 3 ['V'], Op.close 3] :=
  wdogClose_disarm_sequence (fun _ => -1) ⟨3, 1, 1, [], []⟩ (by decide) (by decide)

/-- C2, evaluated where it fails: on a device whose `close` succeeds (returns 0)
the first `wdogClose` stores 0 in `fd`, and the second call then disarms and
closes descriptor 0. -/
theorem wdogClose_twice_operates_on_descriptor_zero :
    (wdogClose mockDev ⟨3, 1, 1, [], []⟩).2.fd = 0 ∧
    (wdogClose mockDev (wdogClose mockDev ⟨3, 1, 1, [], []⟩).2).2.trace =
      [Op.ioctl 3 Req.setOptions 1, Op.write 3 ['V'], Op.close 3,
       Op.ioctl 0 Req.setOptions 1, Op.write 0 ['V'], Op.close 0] := by
  decide

/-- C3: `wdogOpen` returns 1 exactly when `open` returns a negative descriptor,
and then issues nothing else; otherwise it returns 0, keeps the descriptor and
issues the get-support ioctl and the set-timeout ioctl with the requested
timeout, whatever these two return. -/
theorem wdogOpen_fails_iff_open_fails (dev : Dev) (path : Option String)
    (timeout : Int) (s : State) :
    ((wdogOpen dev path timeout s).1 = 1 ↔ dev (s.trace ++ [Op.openDev path]) < 0) ∧
    ((wdogOpen dev path timeout s).1 = 0 ↔ 0 ≤ dev (s.trace ++ [Op.openDev path])) ∧
    (wdogOpen dev path timeout s).2.fd = dev (s.trace ++ [Op.openDev path]) ∧
    (wdogOpen dev path timeout s).2.trace =
      if dev (s.trace ++ [Op.openDev path]) < 0 then s.trace ++ [Op.openDev path]
      else s.trace ++ [Op.openDev path,
                       Op.ioctl (dev (s.trace ++ [Op.openDev path])) Req.getSupport 0,
                       Op.ioctl (dev (s.trace ++ [Op.openDev path])) Req.setTimeout timeout] := by
  by_cases h : dev (s.trace ++ [Op.openDev path]) < 0
  · simp [wdogOpen, sys, syslog, h, not_le.mpr h]
  · have h0 : 0 ≤ dev (s.trace ++ [Op.openDev path]) := not_lt.mp h
    simp only [wdogOpen, sys, syslog, if_neg h]
    refine ⟨by simp [h], by simp [h0], ?_, ?_⟩
    · split_ifs <;> rfl
    · split_ifs <;> simp

/-- C7: on a device that can be opened, `wdogOpen path T` followed at once by
`wdogClose` without the disarm flag issues the open, the get-support ioctl, the
set-timeout ioctl with `T` and one close of the opened descriptor, and nothing
else: no disable-card ioctl and no write.  Both calls return 0. -/
theorem open_close_round_trip (dev : Dev) (path : Option String) (T : Int) (s : State)
    (hdis : s.wdogDisable = 0) (hopen : 0 ≤ dev (s.trace ++ [Op.openDev path])) :
    (wdogOpen dev path T s).1 = 0 ∧
    (wdogClose dev (wdogOpen dev path T s).2).1 = 0 ∧
    (wdogClose dev (wdogOpen dev path T s).2).2.trace =
      s.trace ++ [Op.openDev path,
                  Op.ioctl (dev (s.trace ++ [Op.openDev path])) Req.getSupport 0,
                  Op.ioctl (dev (s.trace ++ [Op.openDev path])) Req.setTimeout T,
                  Op.close (dev (s.trace ++ [Op.openDev path]))] := by
  have h : ¬ dev (s.trace ++ [Op.openDev path]) < 0 := not_lt.mpr hopen
  have hge : dev (s.trace ++ [Op.openDev path]) ≥ 0 := hopen
  simp only [wdogOpen, sys, syslog, if_neg h]
  refine ⟨trivial, ?_, ?_⟩
  · split_ifs <;> simp [wdogClose, sys, hdis, hge]
  · split_ifs <;> simp [wdogClose, sys, hdis, hge]

/-- Witness of C7 on the accepting device, with timeout 10. -/
theorem open_close_round_trip_witness :
    (wdogOpen mockDev (some "/dev/watchdog") 10 State.init).1 = 0 ∧
    (wdogClose mockDev (wdogOpen mockDev (some "/dev/watchdog") 10 State.init).2).1 = 0 ∧
    (wdogClose mockDev (wdogOpen mockDev (some "/dev/watchdog") 10 State.init).2).2.trace =
      [Op.openDev (some "/dev/watchdog"), Op.ioctl 3 Req.getSupport 0,
       Op.ioctl 3 Req.setTimeout 10, Op.close 3] :=
  open_close_round_trip mockDev (some "/dev/watchdog") 10 State.init rfl (by decide)

/-- C10: `wdogClose` returns 1 exactly when the descriptor is open, the disarm
flag is set and the write of the sentinel transfers fewer than one byte; in
every other case it returns 0, so neither a failed disable-card ioctl followed by
a successful write, nor the result of `close`, nor a descriptor below 0 gives a
non-zero result. -/
theorem wdogClose_result (dev : Dev) (s : State) :
    ((wdogClose dev s).1 = 1 ↔
      (0 ≤ s.fd ∧ s.wdogDisable ≠ 0 ∧
        dev (s.trace ++ [Op.ioctl s.fd Req.setOptions WDIOS_DISABLECARD,
                         Op.write s.fd ['V']]) < 1)) ∧
    ((wdogClose dev s).1 = 0 ∨ (wdogClose dev s).1 = 1) := by
  by_cases hfd : s.fd ≥ 0
  · by_cases hdis : s.wdogDisable ≠ 0
    · have h0 : 0 ≤ s.fd := hfd
      simp only [wdogClose, if_pos hfd, if_pos hdis, sys, syslog, magicValue]
      constructor
      · split_ifs <;> simp_all
      · split_ifs <;> simp
    · simp [wdogClose, hfd, hdis]
  · have h0 : ¬ 0 ≤ s.fd := hfd
    simp [wdogClose, hfd, h0]

/-! ## The command line -/

/-- C8, evaluated where it fails: for the command line of the usage text,
`-t=10 -p=5 -b`, `getopt_long` hands `=10` and `=5` to `atoi`, which returns 0
for both, so the timeout and the ping rate are 0 (background is 1). -/
theorem usage_example_parses_to_zero :
    getopt_long ["wdogd", "-t=10", "-p=5", "-b"] =
      [⟨'t', some "=10"⟩, ⟨'p', some "=5"⟩, ⟨'b', none⟩] ∧
    (parseArgs (getopt_long ["wdogd", "-t=10", "-p=5", "-b"]) Locals.init State.init).1 =
      some { devFilename := some "/dev/watchdog", wdogTimeout := 0, pingRate := 0,
             background := 1 } := by
  decide

/-! ## Runs of `main` -/

/-- Without a signal, four steps from the call of `wdogOpen` perform exactly
`wdogOpen`: the step relation and the function agree. -/
theorem run_wdogOpen (dev : Dev) (p : Proc) (hpc : p.pc = Pc.openDev) :
    (run dev noSignal 4 p).g = (wdogOpen dev p.loc.devFilename p.loc.wdogTimeout p.g).2 ∧
    (run dev noSignal 4 p).pc =
      if (wdogOpen dev p.loc.devFilename p.loc.wdogTimeout p.g).1 = 0 then Pc.pidFile
      else Pc.exited 1 := by
  obtain ⟨pc, g, argv, loc⟩ := p
  simp only at hpc
  subst hpc
  by_cases h : dev (g.trace ++ [Op.openDev loc.devFilename]) < 0
  · simp [run, tick, noSignal, step, wdogOpen, sys, syslog, h]
  · simp [run, tick, noSignal, step, wdogOpen, sys, syslog, h]

/-- A process that has ended takes no further step. -/
theorem tick_exited (dev : Dev) (b : Bool) (p : Proc) (c : Int) (h : p.pc = Pc.exited c) :
    tick dev b p = p := by
  obtain ⟨pc, g, argv, loc⟩ := p
  simp only at h
  subst h
  cases b <;> simp [tick, step, deliver]

/-- A process that has ended stays as it is for the rest of the run. -/
theorem run_exited (dev : Dev) (sig : Nat → Bool) (p : Proc) (c : Int) (k : Nat)
    (h : (run dev sig k p).pc = Pc.exited c) (n : Nat) :
    run dev sig (k + n) p = run dev sig k p := by
  induction n with
  | zero => rfl
  | succ n ih =>
    show tick dev (sig (k + n)) (run dev sig (k + n) p) = run dev sig k p
    rw [ih]
    exact tick_exited dev _ _ c h

/-- The handler does nothing to the device while the descriptor is negative. -/
theorem sigHandler_closed (dev : Dev) (s : State) (h : s.fd < 0) :
    (sigHandler dev s).fd = s.fd ∧ (sigHandler dev s).trace = s.trace ∧
    (sigHandler dev s).wdogDisable = s.wdogDisable := by
  have h1 : ¬ s.fd ≥ 0 := not_le.mpr h
  simp [sigHandler, wdogClose, syslog, h1]

/-- The option loop, when it does not end in the usage text, leaves the
descriptor and the history as they were. -/
theorem parseArgs_some (os : List Opt) :
    ∀ (l : Locals) (s : State) (l1 : Locals), (parseArgs os l s).1 = some l1 →
      (parseArgs os l s).2.fd = s.fd ∧ (parseArgs os l s).2.trace = s.trace := by
  induction os with
  | nil => intro l s l1 _; simp [parseArgs]
  | cons o os ih =>
    intro l s l1 h
    unfold parseArgs at h ⊢
    split_ifs at h ⊢
    · exact ih _ _ l1 h
    · exact ih _ _ l1 h
    · cases ho : o.optarg <;> simp only [ho] at h ⊢ <;> exact ih _ _ l1 h
    · cases ho : o.optarg <;> simp only [ho] at h ⊢ <;> exact ih _ _ l1 h
    · exact ih _ _ l1 h

/-- A daemonization that lets the process go on has issued its seven calls. -/
theorem daemonize_none (dev : Dev) (s : State) (h : (daemonize dev s).1 = none) :
    (daemonize dev s).2.fd = s.fd ∧
    (daemonize dev s).2.trace = s.trace ++ daemonOps 1 := by
  unfold daemonize at h ⊢
  simp only [sys, syslog] at h ⊢
  split_ifs at h ⊢
  simp_all [daemonOps]

/-- The start-up invariant holds at the entry of `main`. -/
theorem startup_init (argv : List String) : Startup (Proc.init argv) := by
  simp [Startup, Proc.init, State.init]

/-- The start-up invariant is kept by every step, with or without a signal. -/
theorem startup_tick (dev : Dev) (b : Bool) (p : Proc) (h : Startup p) :
    Startup (tick dev b p) := by
  obtain ⟨pc, g, argv, loc⟩ := p
  obtain ⟨h1, h2, h3⟩ := h
  cases pc with
  | start =>
    obtain ⟨hfd, htr⟩ := h1 rfl
    cases b <;> simp_all [Startup, tick, step, deliver, sys]
  | parse =>
    obtain ⟨hfd, htr⟩ := h2 (Or.inl rfl)
    have hlt : g.fd < 0 := by simp at hfd; omega
    have hs := sigHandler_closed dev g hlt
    cases b
    · simp only [Startup, tick, step, Bool.false_eq_true, if_false]
      cases hp : (parseArgs (getopt_long argv) loc g).1 with
      | none => split <;> simp_all
      | some l1 =>
        have := parseArgs_some _ loc g l1 hp
        split <;> simp_all
    · simp only [Startup, tick, step, deliver, if_true]
      cases hp : (parseArgs (getopt_long argv) loc (sigHandler dev g)).1 with
      | none => split <;> simp_all
      | some l1 =>
        have := parseArgs_some _ loc (sigHandler dev g) l1 hp
        split <;> simp_all
  | daemon =>
    obtain ⟨hfd, htr⟩ := h2 (Or.inr rfl)
    have hlt : g.fd < 0 := by simp at hfd; omega
    have hs := sigHandler_closed dev g hlt
    by_cases hb : loc.background ≠ 0
    · cases b
      · simp only [Startup, tick, step, Bool.false_eq_true, if_false, if_pos hb]
        cases hd : (daemonize dev g).1 with
        | some c => split <;> simp_all
        | none =>
          have := daemonize_none dev g hd
          split <;> simp_all [daemonOps]
      · simp only [Startup, tick, step, deliver, if_true, if_pos hb]
        cases hd : (daemonize dev (sigHandler dev g)).1 with
        | some c => split <;> simp_all
        | none =>
          have := daemonize_none dev (sigHandler dev g) hd
          split <;> simp_all [daemonOps]
    · cases b <;> simp_all [Startup, tick, step, deliver, daemonOps]
  | openDev => cases b <;> simp [Startup, tick, step, deliver]
  | openCheck => cases b <;> simp [Startup, tick, step, deliver] <;> split_ifs <;> simp
  | getSupport => cases b <;> simp [Startup, tick, step, deliver]
  | setTimeout => cases b <;> simp [Startup, tick, step, deliver]
  | pidFile => cases b <;> simp [Startup, tick, step, deliver]
  | loopTest => cases b <;> simp [Startup, tick, step, deliver] <;> split_ifs <;> simp
  | ping => cases b <;> simp [Startup, tick, step, deliver]
  | sleep => cases b <;> simp [Startup, tick, step, deliver]
  | removePid => cases b <;> simp [Startup, tick, step, deliver]
  | exited c => cases b <;> simp [Startup, tick, step, deliver]
  | killed => cases b <;> simp [Startup, tick, step, deliver]

/-- The start-up invariant holds all along a run of `main`. -/
theorem startup_run (dev : Dev) (sig : Nat → Bool) (argv : List String) (n : Nat) :
    Startup (run dev sig n (Proc.init argv)) := by
  induction n with
  | zero => exact startup_init argv
  | succ n ih => exact startup_tick dev _ _ ih

/-- One round of the loop: test, ping, sleep. -/
theorem loop_round (dev : Dev) (q : Proc) (hpc : q.pc = Pc.loopTest)
    (hrun : q.g.appRunning ≠ 0) :
    step dev (step dev (step dev q)) =
      { q with g := (sys dev (Op.sleep (q.loc.pingRate % 4294967296).toNat)
                      (wdogPing dev q.g).2).2 } := by
  obtain ⟨pc, g, argv, loc⟩ := q
  simp only at hpc hrun
  subst hpc
  simp [step, hrun]

/-- From the call of `wdogOpen`, when `open` fails, two steps end the process
with status 1 after the single `open`, whether or not SIGTERM arrives. -/
theorem open_failure_two_ticks (dev : Dev) (b3 b4 : Bool) (p : Proc) (hS : Startup p)
    (hpc : p.pc = Pc.openDev)
    (hfail : dev (p.g.trace ++ [Op.openDev p.loc.devFilename]) < 0) :
    (tick dev b4 (tick dev b3 p)).pc = Pc.exited 1 ∧
    (tick dev b4 (tick dev b3 p)).g.trace = p.g.trace ++ [Op.openDev p.loc.devFilename] ∧
    (tick dev b4 (tick dev b3 p)).loc = p.loc := by
  obtain ⟨pc, g, argv, loc⟩ := p
  simp only at hpc hfail
  subst hpc
  obtain ⟨hfd, -⟩ := hS.2.2 rfl
  simp only at hfd
  have hlt : g.fd < 0 := by omega
  obtain ⟨-, ht, -⟩ := sigHandler_closed dev g hlt
  have chk : ∀ s1 : State, s1.fd < 0 →
      (tick dev b4 ⟨Pc.openCheck, s1, argv, loc⟩).pc = Pc.exited 1 ∧
      (tick dev b4 ⟨Pc.openCheck, s1, argv, loc⟩).g.trace = s1.trace ∧
      (tick dev b4 ⟨Pc.openCheck, s1, argv, loc⟩).loc = loc := by
    intro s1 h1
    obtain ⟨e1, e2, -⟩ := sigHandler_closed dev s1 h1
    have h2 : (sigHandler dev s1).fd < 0 := by rw [e1]; exact h1
    cases b4
    · simp [tick, step, syslog, h1]
    · simp [tick, step, deliver, syslog, h2, e2]
  have key : ∀ s : State, s.trace = g.trace →
      (tick dev b4 (step dev ⟨Pc.openDev, s, argv, loc⟩)).pc = Pc.exited 1 ∧
      (tick dev b4 (step dev ⟨Pc.openDev, s, argv, loc⟩)).g.trace =
        g.trace ++ [Op.openDev loc.devFilename] ∧
      (tick dev b4 (step dev ⟨Pc.openDev, s, argv, loc⟩)).loc = loc := by
    intro s hs
    have hf : dev (s.trace ++ [Op.openDev loc.devFilename]) < 0 := by rw [hs]; exact hfail
    have := chk { (sys dev (Op.openDev loc.devFilename) s).2 with
        fd := (sys dev (Op.openDev loc.devFilename) s).1 } hf
    simpa [step, sys, hs] using this
  cases b3
  · exact key g rfl
  · exact key (sigHandler dev g) ht

/-- C6: when control reaches the call of `wdogOpen` (argument parsing and
daemonization are passed) and the `open` of the device fails, `main` ends with
status 1 two steps later and nothing happens afterwards; the whole history is
the installation of the handler, the daemonization calls if any, and the failed
`open`: no ioctl (keep-alive or disarm), no write, no PID file operation, and no
close other than the three standard streams closed by the daemonization.  This
holds for every device and every arrival of SIGTERM. -/
theorem open_failure_is_fatal (dev : Dev) (sig : Nat → Bool) (argv : List String)
    (hreach : (run dev sig 3 (Proc.init argv)).pc = Pc.openDev)
    (hfail : dev ((run dev sig 3 (Proc.init argv)).g.trace ++
      [Op.openDev (run dev sig 3 (Proc.init argv)).loc.devFilename]) < 0) :
    (run dev sig 5 (Proc.init argv)).pc = Pc.exited 1 ∧
    (∀ n, run dev sig (5 + n) (Proc.init argv) = run dev sig 5 (Proc.init argv)) ∧
    (run dev sig 5 (Proc.init argv)).g.trace =
      Op.sigaction :: daemonOps (run dev sig 3 (Proc.init argv)).loc.background ++
        [Op.openDev (run dev sig 3 (Proc.init argv)).loc.devFilename] ∧
    (∀ op ∈ (run dev sig 5 (Proc.init argv)).g.trace,
      op.isIoctl = false ∧ op.isWrite = false ∧ op.isPidFile = false) ∧
    (run dev sig 5 (Proc.init argv)).g.trace.filter Op.isClose =
      if (run dev sig 3 (Proc.init argv)).loc.background ≠ 0
      then [Op.close 0, Op.close 1, Op.close 2] else [] := by
  have hS := startup_run dev sig argv 3
  obtain ⟨hpc, htr, -⟩ :=
    open_failure_two_ticks dev (sig 3) (sig 4) _ hS hreach hfail
  have h5 : run dev sig 5 (Proc.init argv) =
      tick dev (sig 4) (tick dev (sig 3) (run dev sig 3 (Proc.init argv))) := rfl
  rw [← h5] at hpc htr
  have h3 := (hS.2.2 hreach).2
  rw [h3] at htr
  refine ⟨hpc, fun n => run_exited dev sig _ 1 5 hpc n, by simpa using htr, ?_, ?_⟩
  · rw [htr]
    by_cases hb : (run dev sig 3 (Proc.init argv)).loc.background ≠ 0
    · simp [daemonOps, hb, Op.isIoctl, Op.isWrite, Op.isPidFile]
    · simp [daemonOps, hb, Op.isIoctl, Op.isWrite, Op.isPidFile]
  · rw [htr]
    by_cases hb : (run dev sig 3 (Proc.init argv)).loc.background ≠ 0
    · simp [daemonOps, hb, Op.isClose]
    · simp [daemonOps, hb, Op.isClose]

/-- Witness of C6: background mode, a device that cannot be opened, and SIGTERM
arriving while the device is being opened. -/
theorem open_failure_is_fatal_witness :
    (run (fun tr => if tr.getLast? = some (Op.openDev (some "/dev/watchdog")) then -1 else 0)
      (signalAt 4) 5 (Proc.init ["wdogd", "-b"])).pc = Pc.exited 1 :=
  (open_failure_is_fatal
    (fun tr => if tr.getLast? = some (Op.openDev (some "/dev/watchdog")) then -1 else 0)
    (signalAt 4) ["wdogd", "-b"] (by decide) (by decide)).1

/-- C5: in the daemon loop, as long as no SIGTERM arrives, every round issues
its keep-alive whatever the previous ones returned: after `n` rounds the loop is
again at its test with `fd`, `appRunning` and `wdogDisable` unchanged, and the
history has grown by exactly `n` keep-alive ioctls, each followed by the sleep;
so after `N` failed keep-alives an `(N+1)`-th one is issued.  `wdogPing` itself
only issues the ioctl: it returns 1 when the ioctl returns a negative value and 0
otherwise, and leaves the three globals alone. -/
theorem ping_failures_do_not_stop_loop (dev : Dev) (p : Proc) (n : Nat)
    (hpc : p.pc = Pc.loopTest) (hrun : p.g.appRunning ≠ 0) :
    ((run dev noSignal (3 * n) p).pc = Pc.loopTest ∧
     (run dev noSignal (3 * n) p).loc = p.loc ∧
     (run dev noSignal (3 * n) p).g.fd = p.g.fd ∧
     (run dev noSignal (3 * n) p).g.appRunning = p.g.appRunning ∧
     (run dev noSignal (3 * n) p).g.wdogDisable = p.g.wdogDisable ∧
     (run dev noSignal (3 * n) p).g.trace =
       p.g.trace ++ loopOps p.g.fd (p.loc.pingRate % 4294967296).toNat n) ∧
    (run dev noSignal (3 * n) p).g.trace.countP Op.isKeepAlive =
      p.g.trace.countP Op.isKeepAlive + n ∧
    (∀ s : State,
      (wdogPing dev s).1 = (if dev (s.trace ++ [Op.ioctl s.fd Req.keepAlive 0]) < 0 then 1 else 0) ∧
      (wdogPing dev s).2.trace = s.trace ++ [Op.ioctl s.fd Req.keepAlive 0] ∧
      (wdogPing dev s).2.fd = s.fd ∧
      (wdogPing dev s).2.appRunning = s.appRunning ∧
      (wdogPing dev s).2.wdogDisable = s.wdogDisable) := by
  have hping : ∀ s : State,
      (wdogPing dev s).1 = (if dev (s.trace ++ [Op.ioctl s.fd Req.keepAlive 0]) < 0 then 1 else 0) ∧
      (wdogPing dev s).2.trace = s.trace ++ [Op.ioctl s.fd Req.keepAlive 0] ∧
      (wdogPing dev s).2.fd = s.fd ∧
      (wdogPing dev s).2.appRunning = s.appRunning ∧
      (wdogPing dev s).2.wdogDisable = s.wdogDisable := by
    intro s
    simp only [wdogPing, sys, syslog]
    split_ifs <;> simp
  have hloop : ∀ k : Nat,
      (run dev noSignal (3 * k) p).pc = Pc.loopTest ∧
      (run dev noSignal (3 * k) p).loc = p.loc ∧
      (run dev noSignal (3 * k) p).g.fd = p.g.fd ∧
      (run dev noSignal (3 * k) p).g.appRunning = p.g.appRunning ∧
      (run dev noSignal (3 * k) p).g.wdogDisable = p.g.wdogDisable ∧
      (run dev noSignal (3 * k) p).g.trace =
        p.g.trace ++ loopOps p.g.fd (p.loc.pingRate % 4294967296).toNat k := by
    intro k
    induction k with
    | zero => simp [run, hpc, loopOps]
    | succ k ih =>
      obtain ⟨h1, h2, h3, h4, h5, h6⟩ := ih
      have hr : run dev noSignal (3 * (k + 1)) p =
          step dev (step dev (step dev (run dev noSignal (3 * k) p))) := rfl
      rw [hr, loop_round dev _ h1 (by rw [h4]; exact hrun)]
      obtain ⟨-, p2, p3, p4, p5⟩ := hping (run dev noSignal (3 * k) p).g
      simp only [sys]
      refine ⟨h1, h2, by rw [p3, h3], by rw [p4, h4], by rw [p5, h5], ?_⟩
      rw [p2, h6, h3, h2]
      simp [loopOps]
  refine ⟨hloop n, ?_, hping⟩
  rw [(hloop n).2.2.2.2.2]
  have hc : ∀ k fd secs, (loopOps fd secs k).countP Op.isKeepAlive = k := by
    intro k fd secs
    induction k with
    | zero => rfl
    | succ k ih => simp [loopOps, List.countP_append, ih, List.countP_cons, Op.isKeepAlive]
  rw [List.countP_append, hc]

/-- Witness of C5: three rounds on a device where every call fails. -/
theorem ping_failures_do_not_stop_loop_witness :
    (run (fun _ => -1) noSignal (3 * 3) ⟨Pc.loopTest, ⟨3, 1, 0, [], []⟩, [], Locals.init⟩).g.trace.countP
        Op.isKeepAlive = 0 + 3 :=
  (ping_failures_do_not_stop_loop (fun _ => -1)
    ⟨Pc.loopTest, ⟨3, 1, 0, [], []⟩, [], Locals.init⟩ 3 rfl (by decide)).2.1

/-! ## Runs of `main` with a termination signal -/

/-- C4, evaluated where it fails: SIGTERM arrives between the test of
`appRunning` and the ping (step 9 of the run on the accepting device).  The
handler disarms and closes descriptor 3 once, and the loop body then still
issues a keep-alive ioctl, on the value 0 that `close` left in `fd`. -/
theorem sigterm_before_ping_pings_after_close :
    (run mockDev (signalAt 9) 9 (Proc.init ["wdogd", "-d"])).pc = Pc.ping ∧
    (run mockDev (signalAt 9) 13 (Proc.init ["wdogd", "-d"])).pc = Pc.exited 0 ∧
    (run mockDev (signalAt 9) 13 (Proc.init ["wdogd", "-d"])).g.trace =
      [Op.sigaction, Op.openDev (some "/dev/watchdog"), Op.ioctl 3 Req.getSupport 0,
       Op.ioctl 3 Req.setTimeout 10, Op.fopen "/var/run/wdogd.pid", Op.fprintfPid,
       Op.fclose, Op.ioctl 3 Req.setOptions 1, Op.write 3 ['V'], Op.close 3,
       Op.ioctl 0 Req.keepAlive 0, Op.sleep 5, Op.remove "/var/run/wdogd.pid"] := by
  decide

/-- C9, evaluated where it fails: SIGTERM arrives after the handler is installed
and before the device is opened (step 1).  The handler finds `fd = -1` and
closes nothing; `main` then opens and arms the device, skips the loop and
returns 0 without any close or disarm of descriptor 3. -/
theorem sigterm_before_open_never_closes :
    (run mockDev (signalAt 1) 10 (Proc.init ["wdogd", "-d"])).pc = Pc.exited 0 ∧
    (run mockDev (signalAt 1) 10 (Proc.init ["wdogd", "-d"])).g.fd = 3 ∧
    (run mockDev (signalAt 1) 10 (Proc.init ["wdogd", "-d"])).g.trace =
      [Op.sigaction, Op.openDev (some "/dev/watchdog"), Op.ioctl 3 Req.getSupport 0,
       Op.ioctl 3 Req.setTimeout 10, Op.fopen "/var/run/wdogd.pid", Op.fprintfPid,
       Op.fclose, Op.remove "/var/run/wdogd.pid"] := by
  decide

end Wdog
